import Mathlib

/- Verification of the helper functions of the Solana onchain assistant
   (src/mastra/agents/solana-onchain-assistant, latest helper segment).

   Modelling conventions:
   - JS numbers are modelled as exact rationals; the floating point
     representation is not modelled (every comparison settled below is far
     from a representability boundary).
   - A network call is modelled by a field of an environment structure
     giving the final outcome of that call at its call site (after the
     retries that wrap it); the retry combinator itself is embedded
     separately and verified on abstract operations.
   - A JS exception is modelled with Except; a fallible RPC response whose
     value may be null is modelled with Option inside Except.
   - Factor strings pushed by the risk analyses are modelled by the
     RiskFactor inductive, one constructor per push site of the source,
     carrying the interpolated number where the source interpolates one. -/

namespace SolanaAssistant

/-- Behaviour of the JS Math.round builtin: round half toward positive
    infinity, written as a floor division so that it evaluates by reduction. -/
def mathRound (q : ℚ) : ℤ := Int.fdiv (q + 1 / 2).num ((q + 1 / 2).den : ℤ)

/-- Behaviour of the JS Math.max builtin on two numbers. -/
def mathMax (a b : ℚ) : ℚ := if a ≤ b then b else a

/-- Lower-case a string (the ASCII mapping of the JS toLowerCase on the
    inputs that occur here), written over the character list so that it
    evaluates by reduction. -/
def toLowerStr (s : String) : String := String.mk (s.data.map Char.toLower)

/-- Join strings with a separator (the JS Array.join). -/
def joinWith (sep : String) : List String → String
  | [] => ""
  | [s] => s
  | s :: rest => s ++ sep ++ joinWith sep rest

/-- Split on a single-character separator (the JS String.split). -/
def splitOnCharGo (sep : Char) (acc : List Char) : List Char → List String
  | [] => [String.mk acc.reverse]
  | c :: cs =>
    if c == sep then String.mk acc.reverse :: splitOnCharGo sep [] cs
    else splitOnCharGo sep (c :: acc) cs

/-- Split a string on a single-character separator. -/
def splitOnChar (sep : Char) (s : String) : List String :=
  splitOnCharGo sep [] s.data

/-- Take the first n characters of a string (the JS substring(0, n)). -/
def takeStr (s : String) (n : ℕ) : String := String.mk (s.data.take n)

/-- Conversion constant of @solana/web3.js, 10^9 lamports per SOL. -/
def LAMPORTS_PER_SOL : ℚ := 1000000000

/-- Truthiness of a nullable JS string (null and the empty string are falsy). -/
def optStrTruthy : Option String → Bool
  | none => false
  | some s => !(s == "")

/-- Truthiness of a nullable JS number (null, undefined and 0 are falsy). -/
def optTimeTruthy : Option ℤ → Bool
  | none => false
  | some t => !(t == 0)

/-- Check whether the pattern occurs in some suffix of the haystack. -/
def suffixesContain (pat : List Char) : List Char → Bool
  | [] => pat.isPrefixOf ([] : List Char)
  | c :: cs => pat.isPrefixOf (c :: cs) || suffixesContain pat cs

/-- Behaviour of the JS String.includes builtin. -/
def strIncludes (s pat : String) : Bool := suffixesContain pat.data s.data

/-- Entry of the CoinGecko coins list (interface CoinGeckoToken). -/
structure CoinGeckoToken where
  id : String
  symbol : String
  name : String
deriving DecidableEq

/-- Transaction record (interface Transaction); blockTime may be null. -/
structure Transaction where
  signature : String
  timestamp : Option ℤ
  type : String
  amount : ℚ
  programIds : List String
  status : String
deriving DecidableEq

/-- Holder record (interface TokenHolder). -/
structure TokenHolder where
  address : String
  balance : ℚ
  percentage : ℚ
deriving DecidableEq

/-- Parsed mint data (interface OnChainTokenData); a null authority means revoked. -/
structure OnChainTokenData where
  supply : ℕ
  decimals : ℕ
  mintAuthority : Option String
  freezeAuthority : Option String
deriving DecidableEq

/-- Factor strings pushed by the risk analyses, one constructor per push site. -/
inductive RiskFactor where
  | veryFewTransactions
  | highFailedRate
  | highTransferConcentration
  | unusualFrequency
  | noHolderData
  | extremeConcentration (pct : ℚ)
  | highConcentration (pct : ℚ)
  | extremeTop10 (pct : ℚ)
  | highTop10 (pct : ℚ)
  | veryLowAvgVolume
  | lowAvgVolume
  | veryLowTxFrequency
  | lowTxFrequency
  | negligibleHistory
  | activeMintAuthority
  | activeFreezeAuthority
  | errorAnalyzingOnChain
  | noSignificantRisk
deriving DecidableEq

/-- Result shape of analyzeHolderConcentration and analyzeTransactionPatterns. -/
structure ScoreResult where
  score : ℚ
  factors : List RiskFactor
deriving DecidableEq

/-- Result shape of analyzeLiquidityAndContract. -/
structure LiqContractResult where
  liquidityScore : ℚ
  contractRiskScore : ℚ
  factors : List RiskFactor
deriving DecidableEq

/-- Composite result (interface TokenRiskMetrics), field order as in the source. -/
structure TokenRiskMetrics where
  liquidityScore : ℚ
  holderConcentrationScore : ℚ
  transactionPatternScore : ℚ
  contractRiskScore : ℚ
  overallRiskScore : ℚ
  riskFactors : List RiskFactor
deriving DecidableEq

/-- Error thrown by analyzeTokenRisk before any lookup. -/
inductive RiskError where
  | invalidAddress
deriving DecidableEq

/-- Signature item returned by getSignaturesForAddress. -/
structure SigInfo where
  signature : String
  blockTime : Option ℤ
deriving DecidableEq

/-- Meta block of a fetched transaction; logMessages may be absent. -/
structure TxMeta where
  logMessages : Option (List String)
  preBalances : List ℤ
  postBalances : List ℤ
  err : Bool
deriving DecidableEq

/-- Fetched transaction detail (message static account keys plus meta). -/
structure TxDetail where
  staticAccountKeys : List String
  meta : Option TxMeta
deriving DecidableEq

/-- Item returned by getTokenLargestAccounts (uiAmount is the scaled balance). -/
structure LargestAccount where
  address : String
  uiAmount : ℚ
deriving DecidableEq

/-- Parsed token-account info used by getTokenBalance (raw amount and decimals). -/
structure ParsedTokenAccount where
  amount : ℕ
  decimals : ℕ
deriving DecidableEq

/-- Return shape of getTokenBalance. -/
structure TokenBalanceResult where
  balance : ℚ
  decimals : ℕ
deriving DecidableEq

/-- Environment of one call: the outcome of each RPC primitive at its call
    site, after the retries that wrap it in the source. An Except.error is a
    thrown (or retry-exhausted) failure; Option.none inside ok is a null
    response value. Address validity stands for new PublicKey succeeding. -/
structure RpcEnv where
  isValidSolanaAddress : String → Bool
  signaturesFor : String → ℕ → Except Unit (List SigInfo)
  txDetail : String → Except Unit (Option TxDetail)
  parsedAccountInfo : String → Except Unit (Option OnChainTokenData)
  largestAccounts : String → Except Unit (Option (List LargestAccount))
  tokenAccountsByOwner : String → String → Except Unit (List ParsedTokenAccount)

/-- Decidable equality of Except values, used to evaluate concrete traces. -/
instance {ε α : Type} [DecidableEq ε] [DecidableEq α] : DecidableEq (Except ε α) :=
  fun x y =>
    match x, y with
    | Except.ok a, Except.ok b =>
      if h : a = b then isTrue (by rw [h])
      else isFalse (fun hc => h (Except.ok.inj hc))
    | Except.error a, Except.error b =>
      if h : a = b then isTrue (by rw [h])
      else isFalse (fun hc => h (Except.error.inj hc))
    | Except.ok _, Except.error _ => isFalse (fun hc => Except.noConfusion hc)
    | Except.error _, Except.ok _ => isFalse (fun hc => Except.noConfusion hc)

/-- Trace of one withRetry execution: final result (error none models the
    throw of a null lastError when the loop body never ran), the number of
    invocations of the operation, and the successive waited delays. -/
structure RetryTrace (ε α : Type) where
  result : Except (Option ε) α
  attemptsUsed : ℕ
  waits : List ℕ
deriving DecidableEq

/-- Loop of withRetry: attempt is the 1-based attempt counter, fuel the number
    of attempts still allowed (maxRetries - attempt + 1 in the source loop). -/
def withRetryGo {ε α : Type} (op : ℕ → Except ε α) (delayMs : ℕ) (attempt : ℕ) :
    ℕ → RetryTrace ε α
  | 0 => ⟨Except.error none, 0, []⟩
  | fuel + 1 =>
    match op attempt with
    | Except.ok v => ⟨Except.ok v, 1, []⟩
    | Except.error e =>
      if fuel = 0 then ⟨Except.error (some e), 1, []⟩
      else
        let t := withRetryGo op delayMs (attempt + 1) fuel
        ⟨t.result, t.attemptsUsed + 1, delayMs * attempt :: t.waits⟩

/-- Embedding of withRetry(operation, maxRetries, delayMs): run the operation
    up to maxRetries times; after a failed attempt that is not the last, wait
    delayMs * attempt; after the last failure rethrow the last error. -/
def withRetry {ε α : Type} (op : ℕ → Except ε α) (maxRetries delayMs : ℕ) :
    RetryTrace ε α :=
  withRetryGo op delayMs 1 maxRetries

/-- Embedding of findToken over an already fetched token list: exact id match
    against the lower-cased search term, then case-insensitive symbol match,
    then case-insensitive name match, first hit wins. -/
def findToken (tokens : List CoinGeckoToken) (searchTerm : String) :
    Option CoinGeckoToken :=
  match tokens.find? (fun token => token.id == toLowerStr searchTerm) with
  | some exactMatch => some exactMatch
  | none =>
    match tokens.find? (fun token => toLowerStr token.symbol == toLowerStr searchTerm) with
    | some symbolMatch => some symbolMatch
    | none => tokens.find? (fun token => toLowerStr token.name == toLowerStr searchTerm)

/-- Comparison definition following the words of claim C5 (case-insensitive
    match on id, then symbol, then name); used only to state that the source
    deviates from it on the id field. -/
def findTokenSpec (tokens : List CoinGeckoToken) (searchTerm : String) :
    Option CoinGeckoToken :=
  match tokens.find? (fun token => toLowerStr token.id == toLowerStr searchTerm) with
  | some exactMatch => some exactMatch
  | none =>
    match tokens.find? (fun token => toLowerStr token.symbol == toLowerStr searchTerm) with
    | some symbolMatch => some symbolMatch
    | none => tokens.find? (fun token => toLowerStr token.name == toLowerStr searchTerm)

/-- Embedding of getTokenBalance: every failure path of the source (invalid
    wallet, invalid mint, thrown lookup) is caught and returns balance 0 with
    decimals 0, as does the no-token-account path. -/
def getTokenBalance (env : RpcEnv) (walletAddress tokenMint : String) :
    TokenBalanceResult :=
  if !(env.isValidSolanaAddress walletAddress) then ⟨0, 0⟩
  else if !(env.isValidSolanaAddress tokenMint) then ⟨0, 0⟩
  else
    match env.tokenAccountsByOwner walletAddress tokenMint with
    | Except.error _ => ⟨0, 0⟩
    | Except.ok [] => ⟨0, 0⟩
    | Except.ok (acc :: _) => ⟨(acc.amount : ℚ) / 10 ^ acc.decimals, acc.decimals⟩

/-- Transaction type classification from joined lower-cased log messages. -/
def classifyTx (logMessages : Option (List String)) : String :=
  match logMessages with
  | none => "Unknown"
  | some ls =>
    let logs := toLowerStr (joinWith (" ") ls)
    if strIncludes logs ("swap") || strIncludes logs ("liquidity") then "DeFi"
    else if strIncludes logs ("nft") || strIncludes logs ("mint")  then "NFT"
    else if strIncludes logs ("token") || strIncludes logs ("transfer") then "Token Transfer"
    else "Unknown"

/-- Record produced for a signature whose detail fetch resolved with null. -/
def failedPlaceholder (sig : SigInfo) : Transaction :=
  ⟨sig.signature, sig.blockTime, "Unknown", 0, [], "Failed"⟩

/-- Record produced for one fetched signature from its (possibly null) detail. -/
def buildTx (walletAddress : String) (sig : SigInfo) : Option TxDetail → Transaction
  | none => failedPlaceholder sig
  | some tx =>
    let programIds := tx.staticAccountKeys.filter (fun k => !(k == walletAddress))
    let txType := classifyTx (tx.meta.bind TxMeta.logMessages)
    let amount : ℚ :=
      match tx.meta with
      | none => 0
      | some m =>
        match m.postBalances.head? with
        | none => 0
        | some p =>
          if p == 0 then 0
          else ((p : ℚ) - ((m.preBalances.headD 0 : ℤ) : ℚ)) / LAMPORTS_PER_SOL
    let status :=
      match tx.meta with
      | none => "Success"
      | some m => if m.err then "Failed" else "Success"
    ⟨sig.signature, sig.blockTime, txType, amount, programIds, status⟩

/-- Join a list of per-signature outcomes the way Promise.all does: the first
    rejection rejects the whole join. -/
def collectExcept {ε α : Type} : List (Except ε α) → Except ε (List α)
  | [] => Except.ok []
  | Except.error e :: _ => Except.error e
  | Except.ok a :: rest =>
    match collectExcept rest with
    | Except.error e => Except.error e
    | Except.ok tl => Except.ok (a :: tl)

/-- Embedding of getRecentTransactions: validate, fetch signatures, fetch every
    detail in a joined fan-out, build one record per signature; any uncaught
    throw (invalid address, signature fetch failure, or a rejected detail
    fetch rejecting the Promise.all) is caught and yields the empty list. -/
def getRecentTransactions (env : RpcEnv) (walletAddress : String) (limit : ℕ) :
    List Transaction :=
  if !(env.isValidSolanaAddress walletAddress) then []
  else
    match env.signaturesFor walletAddress limit with
    | Except.error _ => []
    | Except.ok sigs =>
      match collectExcept (sigs.map (fun sig =>
          (env.txDetail sig.signature).map (buildTx walletAddress sig))) with
      | Except.ok txs => txs
      | Except.error _ => []

/-- Embedding of getOnChainTokenData: invalid address, a thrown lookup, a null
    account value and unparsable data all end in the rethrowing catch. -/
def getOnChainTokenData (env : RpcEnv) (tokenAddress : String) :
    Except Unit OnChainTokenData :=
  if !(env.isValidSolanaAddress tokenAddress) then Except.error ()
  else
    match env.parsedAccountInfo tokenAddress with
    | Except.error _ => Except.error ()
    | Except.ok none => Except.error ()
    | Except.ok (some info) => Except.ok info

/-- Percentage computation of getTokenHoldersDistribution once the largest
    accounts and the mint data are available. -/
def holdersFromAccounts (accounts : List LargestAccount) (td : OnChainTokenData) :
    List TokenHolder :=
  if (td.supply : ℚ) / 10 ^ td.decimals = 0 then []
  else accounts.map (fun acc =>
    ⟨acc.address, acc.uiAmount, acc.uiAmount / ((td.supply : ℚ) / 10 ^ td.decimals) * 100⟩)

/-- Embedding of getTokenHoldersDistribution: every failure path (invalid
    address, thrown or null largest-accounts lookup, failed mint-data lookup)
    is caught and returns the empty list, as does a zero derived supply. -/
def getTokenHoldersDistribution (env : RpcEnv) (tokenAddress : String) :
    List TokenHolder :=
  if !(env.isValidSolanaAddress tokenAddress) then []
  else
    match env.largestAccounts tokenAddress with
    | Except.error _ => []
    | Except.ok none => []
    | Except.ok (some accounts) =>
      match getOnChainTokenData env tokenAddress with
      | Except.error _ => []
      | Except.ok td => holdersFromAccounts accounts td

/-- Scoring body of analyzeTransactionPatterns over the fetched transactions. -/
def txPatternsBody (transactions : List Transaction) : ScoreResult :=
  if transactions.length < 10 then
    ⟨mathMax 0 (100 - 20), [RiskFactor.veryFewTransactions]⟩
  else
    let failedTxs := (transactions.filter (fun tx => tx.status == "Failed")).length
    let failedHit := (failedTxs : ℚ) > (transactions.length : ℚ) * 0.2
    let transferCount :=
      (transactions.filter (fun tx => tx.type == "Token Transfer")).length
    let transferHit := (transferCount : ℚ) > (transactions.length : ℚ) * 0.8
    let firstTs := transactions.head?.bind Transaction.timestamp
    let lastTs := transactions.getLast?.bind Transaction.timestamp
    let timeSpan : ℤ :=
      if 1 < transactions.length ∧ optTimeTruthy firstTs = true ∧
          optTimeTruthy lastTs = true then
        firstTs.getD 0 - lastTs.getD 0
      else 0
    let freqHit := 0 < timeSpan ∧ (transactions.length : ℚ) / (timeSpan : ℚ) > 0.1
    ⟨mathMax 0 (100 - (if failedHit then (20 : ℚ) else 0)
              - (if transferHit then (15 : ℚ) else 0)
              - (if freqHit then (10 : ℚ) else 0)),
     (if failedHit then [RiskFactor.highFailedRate] else []) ++
     (if transferHit then [RiskFactor.highTransferConcentration] else []) ++
     (if freqHit then [RiskFactor.unusualFrequency] else [])⟩

/-- Embedding of analyzeTransactionPatterns. The catch of the source is
    unreachable here because getRecentTransactions returns the empty list on
    every failure and the rest of the body is pure. -/
def analyzeTransactionPatterns (env : RpcEnv) (tokenAddress : String) : ScoreResult :=
  txPatternsBody (getRecentTransactions env tokenAddress 100)

/-- Embedding of analyzeHolderConcentration (latest segment: penalties 40 and
    25 on the top holder, 30 and 20 on the top ten). -/
def analyzeHolderConcentration (holders : List TokenHolder) : ScoreResult :=
  match holders with
  | [] => ⟨0, [RiskFactor.noHolderData]⟩
  | topHolder :: rest =>
    let top10Percentage :=
      (((topHolder :: rest).take 10).map TokenHolder.percentage).sum
    ⟨mathMax 0 (100
        - (if topHolder.percentage > 50 then (40 : ℚ)
           else if topHolder.percentage > 20 then 25 else 0)
        - (if top10Percentage > 90 then (30 : ℚ)
           else if top10Percentage > 70 then 20 else 0)),
     (if topHolder.percentage > 50 then [RiskFactor.extremeConcentration topHolder.percentage]
      else if topHolder.percentage > 20 then [RiskFactor.highConcentration topHolder.percentage]
      else []) ++
     (if top10Percentage > 90 then [RiskFactor.extremeTop10 top10Percentage]
      else if top10Percentage > 70 then [RiskFactor.highTop10 top10Percentage]
      else [])⟩

/-- Scoring body of analyzeLiquidityAndContract given the mint data and the
    fetched transactions. -/
def liqContractBody (tokenData : OnChainTokenData) (transactions : List Transaction) :
    LiqContractResult :=
  let totalVolume := (transactions.map (fun tx => |tx.amount|)).sum
  let avgVolume :=
    totalVolume / (if transactions.length = 0 then 1 else (transactions.length : ℚ))
  let volume : ℚ × List RiskFactor :=
    if avgVolume < 1 then (20, [RiskFactor.veryLowAvgVolume])
    else if avgVolume < 10 then (10, [RiskFactor.lowAvgVolume])
    else (0, [])
  let firstTs := transactions.head?.bind Transaction.timestamp
  let lastTs := transactions.getLast?.bind Transaction.timestamp
  let freq : ℚ × List RiskFactor :=
    if 1 < transactions.length ∧ optTimeTruthy firstTs = true ∧
        optTimeTruthy lastTs = true then
      (let timeSpanSeconds : ℤ := firstTs.getD 0 - lastTs.getD 0
       if 0 < timeSpanSeconds then
         (let txPerDay := (transactions.length : ℚ) / ((timeSpanSeconds : ℚ) / 86400)
          if txPerDay < 10 then ((20 : ℚ), [RiskFactor.veryLowTxFrequency])
          else if txPerDay < 50 then (10, [RiskFactor.lowTxFrequency])
          else (0, []))
       else (0, []))
    else if transactions.length ≤ 1 then (30, [RiskFactor.negligibleHistory])
    else (0, [])
  let mint : ℚ × List RiskFactor :=
    if optStrTruthy tokenData.mintAuthority then (50, [RiskFactor.activeMintAuthority])
    else (0, [])
  let freeze : ℚ × List RiskFactor :=
    if optStrTruthy tokenData.freezeAuthority then (40, [RiskFactor.activeFreezeAuthority])
    else (0, [])
  ⟨mathMax 0 (100 - volume.1 - freq.1),
   mathMax 0 (100 - mint.1 - freeze.1),
   volume.2 ++ freq.2 ++ mint.2 ++ freeze.2⟩

/-- Embedding of analyzeLiquidityAndContract: a thrown mint-data lookup is the
    only reachable throw of the try body (getRecentTransactions is total) and
    degrades both scores to 0 with the error factor. -/
def analyzeLiquidityAndContract (env : RpcEnv) (tokenAddress : String) :
    LiqContractResult :=
  match getOnChainTokenData env tokenAddress with
  | Except.error _ => ⟨0, 0, [RiskFactor.errorAnalyzingOnChain]⟩
  | Except.ok tokenData =>
    liqContractBody tokenData (getRecentTransactions env tokenAddress 100)

/-- Factor list of the composite: the gathered factors, or the no-risk marker
    when none were produced. -/
def riskFactorsOf (allFactors : List RiskFactor) : List RiskFactor :=
  if allFactors.length > 0 then allFactors else [RiskFactor.noSignificantRisk]

/-- Assembly of the composite metrics from the three analysis results, with
    the scores array and the factor concatenation ordered as in the source. -/
def mkRiskMetrics (lc : LiqContractResult) (ha ta : ScoreResult) : TokenRiskMetrics :=
  ⟨lc.liquidityScore, ha.score, ta.score, lc.contractRiskScore,
   ((mathRound ([lc.liquidityScore, lc.contractRiskScore, ha.score, ta.score].sum /
      (([lc.liquidityScore, lc.contractRiskScore, ha.score, ta.score].length : ℕ) : ℚ))) : ℚ),
   riskFactorsOf (lc.factors ++ ha.factors ++ ta.factors)⟩

/-- Embedding of analyzeTokenRisk: reject an invalid address before any
    lookup, otherwise combine the three sub-analyses and the holder scoring
    into a TokenRiskMetrics value. -/
def analyzeTokenRisk (env : RpcEnv) (tokenAddress : String) :
    Except RiskError TokenRiskMetrics :=
  if !(env.isValidSolanaAddress tokenAddress) then Except.error RiskError.invalidAddress
  else
    Except.ok (mkRiskMetrics
      (analyzeLiquidityAndContract env tokenAddress)
      (analyzeHolderConcentration (getTokenHoldersDistribution env tokenAddress))
      (analyzeTransactionPatterns env tokenAddress))

/-- Article shape produced by both news fetchers (interface NewsArticle);
    publishedAt is modelled as the epoch-millisecond value that the source
    sorts by (it stores an ISO string and sorts by its parsed time). -/
structure NewsArticle where
  title : String
  summary : String
  source : String
  url : String
  publishedAt : ℤ
  categories : List String
  sentiment : String
deriving DecidableEq

/-- Aggregated response (interface NewsResponse); lastUpdated is the clock
    string the source produces at aggregation time, taken as a parameter. -/
structure NewsResponse where
  articles : List NewsArticle
  totalResults : ℕ
  lastUpdated : String
  trendingTopics : List String
deriving DecidableEq

/-- Entry of the module-level news cache. -/
structure NewsCacheEntry where
  data : NewsResponse
  timestamp : ℤ
deriving DecidableEq

/-- News cache TTL, 5 minutes in milliseconds. -/
def NEWS_CACHE_DURATION : ℤ := 300000

/-- Identity-list cache TTL, 1 hour in milliseconds. -/
def CACHE_DURATION : ℤ := 3600000

/-- Raw CryptoCompare article as consumed by fetchCryptoNews; published_on is
    in epoch seconds and categories is a pipe-separated string. -/
structure CCArticle where
  title : String
  body : String
  source : String
  url : String
  published_on : ℤ
  categories : String
deriving DecidableEq

/-- Raw News API article as consumed by fetchWeb3News; description and content
    are nullable, publishedAt is modelled by its parsed epoch value. -/
structure NAArticle where
  title : String
  description : Option String
  content : Option String
  url : String
  publishedAt : ℤ
  sourceName : String
deriving DecidableEq

/-- Environment of one news aggregation: the outcome of each source request
    (a missing API key and an http failure are both the error case). -/
structure NewsEnv where
  cryptoCompare : Except Unit (List CCArticle)
  newsApi : Except Unit (List NAArticle)

/-- Sentiment derived from the pipe-separated categories string. -/
def ccSentiment (categories : String) : String :=
  if strIncludes (toLowerStr categories) ("positive") then "positive"
  else if strIncludes (toLowerStr categories) ("negative") then "negative"
  else "neutral"

/-- Embedding of fetchCryptoNews: every failure is caught and yields the
    empty list; otherwise each raw article is mapped to a NewsArticle. -/
def fetchCryptoNews (env : NewsEnv) : List NewsArticle :=
  match env.cryptoCompare with
  | Except.error _ => []
  | Except.ok raw =>
    raw.map (fun a =>
      ⟨a.title, a.body, a.source, a.url, a.published_on * 1000,
       splitOnChar ('|') a.categories, ccSentiment a.categories⟩)

/-- Summary of a News API article: the description when truthy, else the
    first 200 characters of the content with an ellipsis (a null content
    gives the JS string undefined concatenated with the ellipsis). -/
def web3Summary (description content : Option String) : String :=
  let fallback :=
    (match content with
     | some c => takeStr c 200
     | none => "undefined") ++ "..."
  match description with
  | some d => if d = "" then fallback else d
  | none => fallback

/-- Embedding of fetchWeb3News: every failure is caught and yields the empty
    list; otherwise each raw article is mapped with fixed categories. -/
def fetchWeb3News (env : NewsEnv) : List NewsArticle :=
  match env.newsApi with
  | Except.error _ => []
  | Except.ok raw =>
    raw.map (fun a =>
      ⟨a.title, web3Summary a.description a.content, a.sourceName, a.url,
       a.publishedAt, [("web3"), ("blockchain")], "neutral"⟩)

/-- Stable insertion of an article into a list sorted by publish time
    descending (models the stable JS sort with comparator b minus a). -/
def insertTimeDesc (a : NewsArticle) : List NewsArticle → List NewsArticle
  | [] => [a]
  | b :: rest =>
    if a.publishedAt < b.publishedAt then b :: insertTimeDesc a rest
    else a :: b :: rest

/-- Sort articles by publish time descending, stably. -/
def sortByTimeDesc (l : List NewsArticle) : List NewsArticle :=
  l.foldr insertTimeDesc []

/-- Match used by the deduplication filter: case-insensitive title equality
    or exact url equality. -/
def newsMatches (a b : NewsArticle) : Bool :=
  toLowerStr a.title == toLowerStr b.title || a.url == b.url

/-- Keep each article only when no earlier article of the full list matches
    it (the source filter compares against findIndex over the whole list). -/
def dedupGo (prev : List NewsArticle) : List NewsArticle → List NewsArticle
  | [] => []
  | a :: rest =>
    if prev.any (fun b => newsMatches b a) then dedupGo (prev ++ [a]) rest
    else a :: dedupGo (prev ++ [a]) rest

/-- Deduplication pass of getAllNews. -/
def dedupArticles (l : List NewsArticle) : List NewsArticle := dedupGo [] l

/-- Word characters of the JS regex class used to split article text. -/
def isWordChar (c : Char) : Bool := c.isAlphanum || c == '_'

/-- Split a string into maximal runs of word characters (the empty tokens a
    JS split can produce are dropped; they never pass the length filter). -/
def splitNonWord (acc : List Char) : List Char → List String
  | [] => if acc.isEmpty then [] else [String.mk acc.reverse]
  | c :: cs =>
    if isWordChar c then splitNonWord (c :: acc) cs
    else if acc.isEmpty then splitNonWord [] cs
    else String.mk acc.reverse :: splitNonWord [] cs

/-- Stop words excluded from the trending-topic count. -/
def stopWords : List String :=
  [("the"), ("a"), ("an"), ("and"), ("or"), ("but"), ("in"), ("on"), ("at"),
   ("to"), ("for"), ("with"), ("by"), ("about"), ("as"), ("of")]

/-- Record one occurrence of a word, keeping first-encounter insertion order
    (models JS object key order for string keys). -/
def bumpWord (freq : List (String × ℕ)) (w : String) : List (String × ℕ) :=
  if freq.any (fun p => p.1 == w) then
    freq.map (fun p => if p.1 == w then (p.1, p.2 + 1) else p)
  else freq ++ [(w, 1)]

/-- Stable insertion by count descending (models the stable JS sort with
    comparator b minus a over the frequency entries). -/
def insertCountDesc (a : String × ℕ) : List (String × ℕ) → List (String × ℕ)
  | [] => [a]
  | b :: rest =>
    if a.2 < b.2 then b :: insertCountDesc a rest
    else a :: b :: rest

/-- Embedding of analyzeTrendingTopics: count the words longer than three
    characters outside the stop list across title and summary text, sort by
    frequency descending and keep the five most frequent words. -/
def analyzeTrendingTopics (articles : List NewsArticle) : List String :=
  let allWords := (articles.map (fun article =>
    (splitNonWord [] (toLowerStr (article.title ++ " " ++ article.summary)).data).filter
      (fun w => w.length > 3 && !(stopWords.contains w)))).flatten
  let freq := allWords.foldl bumpWord []
  ((freq.foldr insertCountDesc []).take 5).map Prod.fst

/-- Aggregation body of getAllNews when the cache is not fresh: merge both
    source lists, sort by time descending, deduplicate, compute trending
    topics, build the response and the refreshed cache entry. -/
def freshNews (env : NewsEnv) (now : ℤ) (nowIso : String) :
    NewsResponse × Option NewsCacheEntry :=
  let allArticles := sortByTimeDesc (fetchCryptoNews env ++ fetchWeb3News env)
  let uniqueArticles := dedupArticles allArticles
  let response : NewsResponse :=
    ⟨uniqueArticles, uniqueArticles.length, nowIso, analyzeTrendingTopics uniqueArticles⟩
  (response, some ⟨response, now⟩)

/-- Embedding of getAllNews: serve a cache entry younger than the TTL,
    otherwise aggregate afresh; both fetchers swallow their own failures, so
    the aggregation itself never throws. -/
def getAllNews (env : NewsEnv) (cache : Option NewsCacheEntry) (now : ℤ)
    (nowIso : String) : NewsResponse × Option NewsCacheEntry :=
  match cache with
  | some c =>
    if now - c.timestamp < NEWS_CACHE_DURATION then (c.data, some c)
    else freshNews env now nowIso
  | none => freshNews env now nowIso

/-- Modelled from the spec: src contains no function computing the risk level
    label (the agent prompt only asks for a headline risk level), so the
    mapping of section 4.6 of the spec is embedded from its words: below 40
    EXTREMELY HIGH, 40 to 59 HIGH, 60 to 79 MEDIUM, 80 and above LOW. -/
def riskLevelOf (score : ℚ) : String :=
  if score < 40 then "EXTREMELY HIGH"
  else if score < 60 then "HIGH"
  else if score < 80 then "MEDIUM"
  else "LOW"

/-- Base environment: every address parses, every RPC primitive fails. -/
def envBase : RpcEnv :=
  ⟨fun _ => true, fun _ _ => Except.error (), fun _ => Except.error (),
   fun _ => Except.error (), fun _ => Except.error (), fun _ _ => Except.error ()⟩

/-- Environment in which no address parses. -/
def envInvalid : RpcEnv := { envBase with isValidSolanaAddress := fun _ => false }

/-- Environment with a valid address and every lookup failing. -/
def envErr : RpcEnv := envBase

/-- Ten signatures spanning one hundred seconds. -/
def c1Sigs : List SigInfo :=
  [⟨"s0", some 1100⟩, ⟨"s1", some 1090⟩, ⟨"s2", some 1080⟩, ⟨"s3", some 1070⟩,
   ⟨"s4", some 1060⟩, ⟨"s5", some 1050⟩, ⟨"s6", some 1040⟩, ⟨"s7", some 1030⟩,
   ⟨"s8", some 1020⟩, ⟨"s9", some 1000⟩]

/-- Detail of one test transaction: a twenty SOL transfer, failed for the
    first three signatures. -/
def c1Detail (s : String) : TxDetail :=
  ⟨[], some ⟨some [("transfer")], [0], [20000000000],
    s == "s0" || s == "s1" || s == "s2"⟩⟩

/-- Environment whose token has a clean mint, one small holder and ten
    transfer transactions of which three failed. -/
def envC1 : RpcEnv :=
  { envBase with
    signaturesFor := fun _ _ => Except.ok c1Sigs,
    txDetail := fun s => Except.ok (some (c1Detail s)),
    parsedAccountInfo := fun _ => Except.ok (some ⟨1000, 0, none, none⟩),
    largestAccounts := fun _ => Except.ok (some [⟨"H1", 100⟩]) }

/-- Metrics computed by analyzeTokenRisk on envC1. -/
def c1Metrics : TokenRiskMetrics :=
  ⟨100, 100, 65, 100, 91,
   [RiskFactor.highFailedRate, RiskFactor.highTransferConcentration]⟩

/-- Environment with one fetched signature whose detail fetch throws. -/
def envC3 : RpcEnv :=
  { envBase with
    signaturesFor := fun _ _ => Except.ok [⟨"sigX", some 1⟩],
    txDetail := fun _ => Except.error () }

/-- Environment whose mint parses with zero supply. -/
def envC6zero : RpcEnv :=
  { envBase with
    parsedAccountInfo := fun _ => Except.ok (some ⟨0, 2, none, none⟩),
    largestAccounts := fun _ => Except.ok (some [⟨"X", 5⟩]) }

/-- Environment in which only the addresses W and M parse and the
    token-account lookup throws. -/
def envC10 : RpcEnv :=
  { envBase with isValidSolanaAddress := fun s => s == "W" || s == "M" }

/-- Variant of envC10 whose token-account lookup finds no account. -/
def envC10b : RpcEnv :=
  { envC10 with tokenAccountsByOwner := fun _ _ => Except.ok [] }

/-- Metrics computed by analyzeTokenRisk on envErr. -/
def c9M : TokenRiskMetrics :=
  ⟨0, 0, 80, 0, 20,
   [RiskFactor.errorAnalyzingOnChain, RiskFactor.noHolderData,
    RiskFactor.veryFewTransactions]⟩

/-- Holder list of claim C7: one sixty percent holder then nine holders of
    five percent each. -/
def c7Holders : List TokenHolder :=
  ⟨"h0", 60, 60⟩ :: List.replicate 9 ⟨"h1", 5, 5⟩

/-- News environment in which both sources fail. -/
def envNewsBothFail : NewsEnv := ⟨Except.error (), Except.error ()⟩

/-- One raw CryptoCompare article with short neutral words. -/
def ccSample : CCArticle := ⟨"aa", "bb", "src", "u1", 5, "x"⟩

/-- News environment in which only the second source fails. -/
def envNewsOneFail : NewsEnv := ⟨Except.ok [ccSample], Except.error ()⟩

/-- Claim C7: analyzeHolderConcentration returns score 0 with the no-data
    factor on the empty holder list; on one holder of sixty percent followed
    by nine of five percent it emits the extreme-concentration factor and
    returns 100 minus the top-holder penalty 40 minus the top-ten penalty 30
    (the top-ten sum 105 exceeds the 90 threshold), floored at 0. -/
theorem c7_holderConcentration :
    analyzeHolderConcentration [] = ⟨0, [RiskFactor.noHolderData]⟩ ∧
    analyzeHolderConcentration c7Holders =
      ⟨mathMax 0 (100 - 40 - 30),
       [RiskFactor.extremeConcentration 60, RiskFactor.extremeTop10 105]⟩ ∧
    (mathMax 0 (100 - 40 - 30) : ℚ) = 30 := by
  refine ⟨rfl, ?_, by norm_num [mathMax]⟩
  with_unfolding_all decide

/-- Claim C4: with a stale cache, the failure of one source degrades to an
    empty list from that source only, but the failure of both sources does
    not propagate an error: getAllNews returns a normal aggregated response
    with no articles, because both fetchers swallow their own failures. -/
theorem c4_newsAggregation :
    (getAllNews envNewsBothFail none 0 ("t")).1 = ⟨[], 0, "t", []⟩ ∧
    (getAllNews envNewsOneFail none 0 ("t")).1 =
      ⟨[⟨"aa", "bb", "src", "u1", 5000, [("x")], "neutral"⟩], 1, "t", []⟩ := by
  constructor
  · rfl
  · decide

/-- Unfolding lemma of the retry loop for a successful attempt. -/
theorem withRetryGo_ok {ε α : Type} (op : ℕ → Except ε α) (d a fuel : ℕ) (v : α)
    (h : op a = Except.ok v) :
    withRetryGo op d a (fuel + 1) = ⟨Except.ok v, 1, []⟩ := by
  unfold withRetryGo
  rw [h]

/-- Unfolding lemma of the retry loop for a failure on the final attempt. -/
theorem withRetryGo_err_last {ε α : Type} (op : ℕ → Except ε α) (d a : ℕ) (e : ε)
    (h : op a = Except.error e) :
    withRetryGo op d a 1 = ⟨Except.error (some e), 1, []⟩ := by
  show withRetryGo op d a (0 + 1) = _
  unfold withRetryGo
  rw [h]
  rfl

/-- Unfolding lemma of the retry loop for a failure with attempts left: wait
    d times the attempt number, then continue with the next attempt. -/
theorem withRetryGo_err_step {ε α : Type} (op : ℕ → Except ε α) (d a fuel : ℕ) (e : ε)
    (h : op a = Except.error e) :
    withRetryGo op d a (fuel + 2) =
      ⟨(withRetryGo op d (a + 1) (fuel + 1)).result,
       (withRetryGo op d (a + 1) (fuel + 1)).attemptsUsed + 1,
       d * a :: (withRetryGo op d (a + 1) (fuel + 1)).waits⟩ := by
  show withRetryGo op d a (fuel + 1 + 1) = _
  conv_lhs => unfold withRetryGo
  rw [h]
  rfl

/-- Claim C2: withRetry with budget 3 and base delay d invoked on an
    operation failing twice then succeeding returns the success value after
    exactly 3 invocations, waiting d times the attempt number between
    consecutive attempts; invoked on an operation failing three times it
    makes exactly 3 invocations, waits d then 2 d, and rethrows the error of
    the last invocation. -/
theorem c2_withRetry {ε α : Type} (op opFail : ℕ → Except ε α) (d : ℕ) (v : α)
    (e1 e2 f1 f2 f3 : ε)
    (h1 : op 1 = Except.error e1) (h2 : op 2 = Except.error e2)
    (h3 : op 3 = Except.ok v)
    (g1 : opFail 1 = Except.error f1) (g2 : opFail 2 = Except.error f2)
    (g3 : opFail 3 = Except.error f3) :
    withRetry op 3 d = ⟨Except.ok v, 3, [d * 1, d * 2]⟩ ∧
    withRetry opFail 3 d = ⟨Except.error (some f3), 3, [d * 1, d * 2]⟩ := by
  constructor
  · show withRetryGo op d 1 (1 + 2) = _
    rw [withRetryGo_err_step op d 1 1 e1 h1]
    rw [show (1 + 1 : ℕ) = 0 + 2 from rfl]
    rw [withRetryGo_err_step op d 2 0 e2 h2]
    rw [withRetryGo_ok op d 3 0 v h3]
  · show withRetryGo opFail d 1 (1 + 2) = _
    rw [withRetryGo_err_step opFail d 1 1 f1 g1]
    rw [show (1 + 1 : ℕ) = 0 + 2 from rfl]
    rw [withRetryGo_err_step opFail d 2 0 f2 g2]
    rw [withRetryGo_err_last opFail d 3 f3 g3]

/-- Test operation succeeding on its third invocation. -/
def retryOpOk (n : ℕ) : Except ℕ ℕ := if n = 3 then Except.ok 7 else Except.error n

/-- Test operation failing on every invocation. -/
def retryOpFail (n : ℕ) : Except ℕ ℕ := Except.error n

/-- Claim C2 witness: the retry behaviour evaluated on two concrete
    operations with base delay 5. -/
theorem c2_withRetry_witness :
    withRetry retryOpOk 3 5 = ⟨Except.ok 7, 3, [5 * 1, 5 * 2]⟩ ∧
    withRetry retryOpFail 3 5 = ⟨Except.error (some 3), 3, [5 * 1, 5 * 2]⟩ :=
  c2_withRetry retryOpOk retryOpFail 5 7 1 2 1 2 3
    (by decide) (by decide) (by decide) (by decide) (by decide) (by decide)

/-- Mapping over a resolved outcome applies the function. -/
theorem exceptMap_ok {ε α β : Type} (f : α → β) (a : α) :
    Except.map f (Except.ok a : Except ε α) = Except.ok (f a) := rfl

/-- Mapping over a rejection keeps the rejection. -/
theorem exceptMap_err {ε α β : Type} (f : α → β) (e : ε) :
    Except.map f (Except.error e : Except ε α) = Except.error e := rfl

/-- Joining a list headed by a resolved outcome keeps the outcome in front. -/
theorem collectExcept_cons_ok {ε α : Type} (a : α) (l : List (Except ε α)) :
    collectExcept (Except.ok a :: l) =
      match collectExcept l with
      | Except.error e => Except.error e
      | Except.ok tl => Except.ok (a :: tl) := rfl

/-- Joining a list headed by a rejection rejects with that error. -/
theorem collectExcept_cons_err {ε α : Type} (e : ε) (l : List (Except ε α)) :
    collectExcept (Except.error e :: l) = Except.error e := rfl

/-- When no detail fetch of the batch throws, the joined fan-out resolves
    with one record per signature, and a null detail yields the placeholder. -/
theorem collectFanout_ok (env : RpcEnv) (addr : String) :
    ∀ sigs : List SigInfo,
      (∀ s ∈ sigs, env.txDetail s.signature ≠ Except.error ()) →
      ∃ txs, collectExcept (sigs.map (fun sig =>
          (env.txDetail sig.signature).map (buildTx addr sig))) = Except.ok txs ∧
        txs.length = sigs.length ∧
        (∀ s ∈ sigs, env.txDetail s.signature = Except.ok none →
          failedPlaceholder s ∈ txs) := by
  intro sigs
  induction sigs with
  | nil => exact fun _ => ⟨[], rfl, rfl, by simp⟩
  | cons s rest ih =>
    intro hall
    obtain ⟨txs, hcol, hlen, hmem⟩ := ih (fun t ht => hall t (List.mem_cons_of_mem s ht))
    have hs := hall s (List.mem_cons_self s rest)
    cases hd : env.txDetail s.signature with
    | error e => cases e; exact absurd hd hs
    | ok od =>
      refine ⟨buildTx addr s od :: txs, ?_, ?_, ?_⟩
      · simp only [List.map_cons, hd, exceptMap_ok]
        rw [collectExcept_cons_ok, hcol]
      · simp [hlen]
      · intro t ht hnone
        rcases List.mem_cons.mp ht with h1 | h2
        · subst h1
          rw [hd] at hnone
          have hod : od = none := by
            injection hnone
          subst hod
          exact List.mem_cons_self _ txs
        · exact List.mem_cons_of_mem _ (hmem t h2 hnone)

/-- When some detail fetch of the batch throws, the joined fan-out rejects. -/
theorem collectFanout_err (env : RpcEnv) (addr : String) :
    ∀ sigs : List SigInfo,
      (∃ s ∈ sigs, env.txDetail s.signature = Except.error ()) →
      ∃ e, collectExcept (sigs.map (fun sig =>
          (env.txDetail sig.signature).map (buildTx addr sig))) = Except.error e := by
  intro sigs
  induction sigs with
  | nil =>
    rintro ⟨s, hs, _⟩
    exact absurd hs (List.not_mem_nil s)
  | cons s rest ih =>
    rintro ⟨t, ht, herr⟩
    rcases List.mem_cons.mp ht with h1 | h2
    · subst h1
      refine ⟨(), ?_⟩
      simp only [List.map_cons, herr, exceptMap_err]
      exact collectExcept_cons_err () _
    · cases hd : env.txDetail s.signature with
      | error e =>
        cases e
        refine ⟨(), ?_⟩
        simp only [List.map_cons, hd, exceptMap_err]
        exact collectExcept_cons_err () _
      | ok od =>
        obtain ⟨e, hcol⟩ := ih ⟨t, h2, herr⟩
        refine ⟨e, ?_⟩
        simp only [List.map_cons, hd, exceptMap_ok]
        rw [collectExcept_cons_ok, hcol]

/-- Claim C3 (amended): on a valid address with a fetched signature list,
    when every detail fetch resolves the call returns exactly one record per
    fetched signature and a null resolution is recorded as the placeholder
    with status Failed, amount 0 and type Unknown; but when some detail fetch
    throws even after its retries, the joined fan-out rejects and the catch
    returns the empty list instead. -/
theorem c3_recentTransactions (env : RpcEnv) (addr : String) (limit : ℕ)
    (sigs : List SigInfo)
    (hv : env.isValidSolanaAddress addr = true)
    (hs : env.signaturesFor addr limit = Except.ok sigs) :
    ((∀ s ∈ sigs, env.txDetail s.signature ≠ Except.error ()) →
      (getRecentTransactions env addr limit).length = sigs.length ∧
      (∀ s ∈ sigs, env.txDetail s.signature = Except.ok none →
        failedPlaceholder s ∈ getRecentTransactions env addr limit)) ∧
    ((∃ s ∈ sigs, env.txDetail s.signature = Except.error ()) →
      getRecentTransactions env addr limit = []) := by
  have hfn : getRecentTransactions env addr limit =
      match collectExcept (sigs.map (fun sig =>
          (env.txDetail sig.signature).map (buildTx addr sig))) with
      | Except.ok txs => txs
      | Except.error _ => [] := by
    unfold getRecentTransactions
    rw [hv, hs]
    rfl
  constructor
  · intro hall
    obtain ⟨txs, hcol, hlen, hmem⟩ := collectFanout_ok env addr sigs hall
    rw [hfn, hcol]
    exact ⟨hlen, hmem⟩
  · intro hex
    obtain ⟨e, hcol⟩ := collectFanout_err env addr sigs hex
    rw [hfn, hcol]

/-- Claim C3 counterexample: one signature is fetched but its detail fetch
    throws, and the call returns zero records, not one placeholder record. -/
theorem c3_counterexample :
    (∃ sigs, envC3.signaturesFor ("A") 1 = Except.ok sigs ∧ sigs.length = 1) ∧
    (getRecentTransactions envC3 ("A") 1).length = 0 := by
  constructor
  · exact ⟨[⟨"sigX", some 1⟩], rfl, rfl⟩
  · decide

/-- Claim C3 witness: the amended statement applied to a concrete
    environment in which every detail fetch resolves, and to one in which
    the single detail fetch throws. -/
theorem c3_recentTransactions_witness :
    (getRecentTransactions envC1 ("TOKEN") 100).length = c1Sigs.length ∧
    getRecentTransactions envC3 ("A") 1 = [] :=
  ⟨((c3_recentTransactions envC1 ("TOKEN") 100 c1Sigs rfl rfl).1 (by decide)).1,
   (c3_recentTransactions envC3 ("A") 1 [⟨"sigX", some 1⟩] rfl rfl).2
     ⟨⟨"sigX", some 1⟩, by decide, rfl⟩⟩

/-- Claim C10: getTokenBalance is total, and an invalid wallet address, an
    invalid mint address, a thrown lookup and an absent token account all
    return the same balance 0 with decimals 0, so a failed lookup cannot be
    distinguished from a true zero balance. -/
theorem c10_tokenBalance (env : RpcEnv) (wallet mint : String) :
    (env.isValidSolanaAddress wallet = false →
      getTokenBalance env wallet mint = ⟨0, 0⟩) ∧
    (env.isValidSolanaAddress mint = false →
      getTokenBalance env wallet mint = ⟨0, 0⟩) ∧
    (env.tokenAccountsByOwner wallet mint = Except.error () →
      getTokenBalance env wallet mint = ⟨0, 0⟩) ∧
    (env.tokenAccountsByOwner wallet mint = Except.ok [] →
      getTokenBalance env wallet mint = ⟨0, 0⟩) := by
  refine ⟨?_, ?_, ?_, ?_⟩
  · intro h
    unfold getTokenBalance
    rw [h]
    rfl
  · intro h
    unfold getTokenBalance
    rw [h]
    cases hw : env.isValidSolanaAddress wallet <;> rfl
  · intro h
    unfold getTokenBalance
    cases hw : env.isValidSolanaAddress wallet
    · rfl
    · cases hm : env.isValidSolanaAddress mint
      · rfl
      · rw [h]
        rfl
  · intro h
    unfold getTokenBalance
    cases hw : env.isValidSolanaAddress wallet
    · rfl
    · cases hm : env.isValidSolanaAddress mint
      · rfl
      · rw [h]
        rfl

/-- Claim C10 witness: the four indistinguishable zero results on concrete
    environments (invalid wallet, invalid mint, thrown lookup, no account). -/
theorem c10_tokenBalance_witness :
    getTokenBalance envC10 ("X") ("M") = ⟨0, 0⟩ ∧
    getTokenBalance envC10 ("W") ("Y") = ⟨0, 0⟩ ∧
    getTokenBalance envC10 ("W") ("M") = ⟨0, 0⟩ ∧
    getTokenBalance envC10b ("W") ("M") = ⟨0, 0⟩ :=
  ⟨(c10_tokenBalance envC10 ("X") ("M")).1 rfl,
   (c10_tokenBalance envC10 ("W") ("Y")).2.1 rfl,
   (c10_tokenBalance envC10 ("W") ("M")).2.2.1 rfl,
   (c10_tokenBalance envC10b ("W") ("M")).2.2.2 rfl⟩

/-- Claim C5 counterexample: under the claimed case-insensitive id match the
    search BTC would return the entry with id BTC, but findToken compares
    the id against the lower-cased term by exact equality and returns null. -/
theorem c5_counterexample :
    findToken [⟨"BTC", "aaa", "bbb"⟩] ("BTC") = none ∧
    findTokenSpec [⟨"BTC", "aaa", "bbb"⟩] ("BTC") = some ⟨"BTC", "aaa", "bbb"⟩ := by
  constructor <;> decide

/-- Claim C5 (amended): findToken returns the first entry whose id equals
    the lower-cased search term exactly (the id itself is not lower-cased),
    else the first case-insensitive symbol match, else the first
    case-insensitive name match, else null. -/
theorem c5_findToken (tokens : List CoinGeckoToken) (term : String) :
    (∀ tok, tokens.find? (fun t => t.id == toLowerStr term) = some tok →
      findToken tokens term = some tok) ∧
    ((∀ t ∈ tokens, (t.id == toLowerStr term) = false) →
      ∀ tok, tokens.find? (fun t => toLowerStr t.symbol == toLowerStr term) = some tok →
        findToken tokens term = some tok) ∧
    ((∀ t ∈ tokens, (t.id == toLowerStr term) = false ∧
        (toLowerStr t.symbol == toLowerStr term) = false) →
      findToken tokens term =
        tokens.find? (fun t => toLowerStr t.name == toLowerStr term)) ∧
    ((∀ t ∈ tokens, (t.id == toLowerStr term) = false ∧
        (toLowerStr t.symbol == toLowerStr term) = false ∧
        (toLowerStr t.name == toLowerStr term) = false) →
      findToken tokens term = none) := by
  refine ⟨?_, ?_, ?_, ?_⟩
  · intro tok h
    unfold findToken
    rw [h]
  · intro hid tok h
    have h1 : tokens.find? (fun t => t.id == toLowerStr term) = none :=
      List.find?_eq_none.mpr (fun x hx => by simp [hid x hx])
    unfold findToken
    rw [h1, h]
  · intro hboth
    have h1 : tokens.find? (fun t => t.id == toLowerStr term) = none :=
      List.find?_eq_none.mpr (fun x hx => by simp [(hboth x hx).1])
    have h2 : tokens.find? (fun t => toLowerStr t.symbol == toLowerStr term) = none :=
      List.find?_eq_none.mpr (fun x hx => by simp [(hboth x hx).2])
    unfold findToken
    rw [h1, h2]
  · intro hall
    have h1 : tokens.find? (fun t => t.id == toLowerStr term) = none :=
      List.find?_eq_none.mpr (fun x hx => by simp [(hall x hx).1])
    have h2 : tokens.find? (fun t => toLowerStr t.symbol == toLowerStr term) = none :=
      List.find?_eq_none.mpr (fun x hx => by simp [(hall x hx).2.1])
    have h3 : tokens.find? (fun t => toLowerStr t.name == toLowerStr term) = none :=
      List.find?_eq_none.mpr (fun x hx => by simp [(hall x hx).2.2])
    unfold findToken
    rw [h1, h2, h3]

/-- Catalog with no id btc but a symbol lower-casing to btc. -/
def btcCatalog : List CoinGeckoToken := [⟨"bitcoin", "BTC", "Bitcoin"⟩]

/-- Claim C5 witness: the search btc resolved through the case-insensitive
    symbol match when no id equals btc. -/
theorem c5_findToken_witness :
    findToken btcCatalog ("btc") = some ⟨"bitcoin", "BTC", "Bitcoin"⟩ :=
  (c5_findToken btcCatalog ("btc")).2.1 (by decide)
    ⟨"bitcoin", "BTC", "Bitcoin"⟩ (by decide)

/-- Claim C6: getTokenHoldersDistribution returns the empty list, not an
    error, on an invalid address, a thrown or null largest-accounts lookup,
    a failed mint lookup, or a zero derived total supply; otherwise every
    returned holder carries percentage balance divided by the decimals-scaled
    total supply times 100, with that total supply nonzero. -/
theorem c6_holdersDistribution (env : RpcEnv) (addr : String) :
    ((env.isValidSolanaAddress addr = false ∨
      env.largestAccounts addr = Except.error () ∨
      env.largestAccounts addr = Except.ok none ∨
      getOnChainTokenData env addr = Except.error ()) →
      getTokenHoldersDistribution env addr = []) ∧
    (∀ td, getOnChainTokenData env addr = Except.ok td →
      (td.supply : ℚ) / 10 ^ td.decimals = 0 →
      getTokenHoldersDistribution env addr = []) ∧
    (∀ h ∈ getTokenHoldersDistribution env addr,
      ∃ td, getOnChainTokenData env addr = Except.ok td ∧
        (td.supply : ℚ) / 10 ^ td.decimals ≠ 0 ∧
        h.percentage = h.balance / ((td.supply : ℚ) / 10 ^ td.decimals) * 100) := by
  refine ⟨?_, ?_, ?_⟩
  · rintro (h | h | h | h)
    · unfold getTokenHoldersDistribution
      rw [h]
      rfl
    · unfold getTokenHoldersDistribution
      cases hv : env.isValidSolanaAddress addr
      · rfl
      · rw [h]
        rfl
    · unfold getTokenHoldersDistribution
      cases hv : env.isValidSolanaAddress addr
      · rfl
      · rw [h]
        rfl
    · unfold getTokenHoldersDistribution
      cases hv : env.isValidSolanaAddress addr
      · rfl
      · cases hl : env.largestAccounts addr with
        | error e => rfl
        | ok o =>
          cases o with
          | none => rfl
          | some accounts =>
            rw [h]
            rfl
  · intro td htd hzero
    unfold getTokenHoldersDistribution
    cases hv : env.isValidSolanaAddress addr
    · rfl
    · cases hl : env.largestAccounts addr with
      | error e => rfl
      | ok o =>
        cases o with
        | none => rfl
        | some accounts =>
          rw [htd]
          show holdersFromAccounts accounts td = []
          unfold holdersFromAccounts
          rw [if_pos hzero]
  · intro h
    unfold getTokenHoldersDistribution
    cases hv : env.isValidSolanaAddress addr
    · intro hmem
      exact absurd hmem (List.not_mem_nil h)
    · cases hl : env.largestAccounts addr with
      | error e =>
        intro hmem
        exact absurd hmem (List.not_mem_nil h)
      | ok o =>
        cases o with
        | none =>
          intro hmem
          exact absurd hmem (List.not_mem_nil h)
        | some accounts =>
          cases htd : getOnChainTokenData env addr with
          | error e =>
            intro hmem
            exact absurd hmem (List.not_mem_nil h)
          | ok td =>
            intro hmem
            have hmem2 : h ∈ holdersFromAccounts accounts td := hmem
            unfold holdersFromAccounts at hmem2
            by_cases hz : (td.supply : ℚ) / 10 ^ td.decimals = 0
            · rw [if_pos hz] at hmem2
              exact absurd hmem2 (List.not_mem_nil h)
            · rw [if_neg hz] at hmem2
              obtain ⟨acc, hacc, heq⟩ := List.mem_map.mp hmem2
              refine ⟨td, rfl, hz, ?_⟩
              rw [← heq]

/-- Claim C6 witness: the empty result on a zero-supply mint, and the
    percentage equation on the holder returned in a concrete environment
    with supply 1000, decimals 0 and one account of 100 units. -/
theorem c6_holdersDistribution_witness :
    getTokenHoldersDistribution envC6zero ("T") = [] ∧
    (∃ td, getOnChainTokenData envC1 ("TOKEN") = Except.ok td ∧
      (td.supply : ℚ) / 10 ^ td.decimals ≠ 0 ∧
      (⟨"H1", (100 : ℚ), (10 : ℚ)⟩ : TokenHolder).percentage =
        (⟨"H1", (100 : ℚ), (10 : ℚ)⟩ : TokenHolder).balance /
          ((td.supply : ℚ) / 10 ^ td.decimals) * 100) :=
  ⟨(c6_holdersDistribution envC6zero ("T")).2.1 ⟨0, 2, none, none⟩ rfl (by norm_num),
   (c6_holdersDistribution envC1 ("TOKEN")).2.2 ⟨"H1", 100, 10⟩
     (by with_unfolding_all decide)⟩

/-- Overall score of the assembled metrics: the rounded mean of the scores
    array equals the rounded mean of the four sub-scores written as a sum. -/
theorem mkRiskMetrics_overall (lc : LiqContractResult) (ha ta : ScoreResult) :
    (mkRiskMetrics lc ha ta).overallRiskScore =
      ((mathRound ((lc.liquidityScore + lc.contractRiskScore +
        ha.score + ta.score) / 4) : ℤ) : ℚ) := by
  show ((mathRound ([lc.liquidityScore, lc.contractRiskScore, ha.score, ta.score].sum /
      (([lc.liquidityScore, lc.contractRiskScore, ha.score, ta.score].length : ℕ) : ℚ)) : ℤ) : ℚ) = _
  congr 2
  simp [List.sum_cons, List.sum_nil]
  ring

/-- Claim C1 (amended): for every validly formatted address the returned
    metrics report the four sub-scores unchanged, and the overall risk score
    is the equal-weight arithmetic mean of the four sub-scores rounded to the
    nearest integer by Math.round, not the exact mean. -/
theorem c1_overallMean (env : RpcEnv) (addr : String) (m : TokenRiskMetrics)
    (h : analyzeTokenRisk env addr = Except.ok m) :
    m.overallRiskScore = ((mathRound ((m.liquidityScore + m.contractRiskScore +
        m.holderConcentrationScore + m.transactionPatternScore) / 4) : ℤ) : ℚ) ∧
    m.liquidityScore = (analyzeLiquidityAndContract env addr).liquidityScore ∧
    m.contractRiskScore = (analyzeLiquidityAndContract env addr).contractRiskScore ∧
    m.holderConcentrationScore =
      (analyzeHolderConcentration (getTokenHoldersDistribution env addr)).score ∧
    m.transactionPatternScore = (analyzeTransactionPatterns env addr).score := by
  unfold analyzeTokenRisk at h
  cases hv : env.isValidSolanaAddress addr
  · rw [hv] at h
    simp at h
  · rw [hv] at h
    have hm : mkRiskMetrics
        (analyzeLiquidityAndContract env addr)
        (analyzeHolderConcentration (getTokenHoldersDistribution env addr))
        (analyzeTransactionPatterns env addr) = m := by
      injection h
    subst hm
    refine ⟨mkRiskMetrics_overall _ _ _, rfl, rfl, rfl, rfl⟩

/-- Claim C1 counterexample: on a concrete environment the four sub-scores
    are 100, 100, 65 and 100, whose mean 91.25 is not an integer; the code
    returns the rounded value 91, so overallRiskScore differs from the
    arithmetic mean of the reported sub-scores. -/
theorem c1_counterexample :
    analyzeTokenRisk envC1 ("TOKEN") = Except.ok c1Metrics ∧
    c1Metrics.overallRiskScore ≠ (c1Metrics.liquidityScore + c1Metrics.contractRiskScore +
      c1Metrics.holderConcentrationScore + c1Metrics.transactionPatternScore) / 4 := by
  constructor
  · with_unfolding_all decide
  · with_unfolding_all decide

/-- Claim C1 witness: the amended statement applied to the concrete
    environment envC1, whose metrics are c1Metrics. -/
theorem c1_overallMean_witness :
    c1Metrics.overallRiskScore = ((mathRound ((c1Metrics.liquidityScore +
        c1Metrics.contractRiskScore + c1Metrics.holderConcentrationScore +
        c1Metrics.transactionPatternScore) / 4) : ℤ) : ℚ) ∧
    c1Metrics.liquidityScore = (analyzeLiquidityAndContract envC1 ("TOKEN")).liquidityScore ∧
    c1Metrics.contractRiskScore =
      (analyzeLiquidityAndContract envC1 ("TOKEN")).contractRiskScore ∧
    c1Metrics.holderConcentrationScore =
      (analyzeHolderConcentration (getTokenHoldersDistribution envC1 ("TOKEN"))).score ∧
    c1Metrics.transactionPatternScore =
      (analyzeTransactionPatterns envC1 ("TOKEN")).score :=
  c1_overallMean envC1 ("TOKEN") c1Metrics (by with_unfolding_all decide)

/-- Claim C8: analyzeTokenRisk rejects an invalid address with the
    invalid-address error before consulting anything else (two environments
    agreeing on validity agree on the result), always returns a metrics value
    on a valid address, and degrades a thrown or null mint lookup inside the
    liquidity-and-contract sub-analysis to both scores 0 with the
    error-analyzing factor instead of propagating the failure. -/
theorem c8_composite (env envB : RpcEnv) (addr : String) :
    (env.isValidSolanaAddress addr = false →
      analyzeTokenRisk env addr = Except.error RiskError.invalidAddress) ∧
    (env.isValidSolanaAddress addr = false → envB.isValidSolanaAddress addr = false →
      analyzeTokenRisk env addr = analyzeTokenRisk envB addr) ∧
    (env.isValidSolanaAddress addr = true →
      ∃ m, analyzeTokenRisk env addr = Except.ok m) ∧
    (env.isValidSolanaAddress addr = true →
      (env.parsedAccountInfo addr = Except.error () ∨
       env.parsedAccountInfo addr = Except.ok none) →
      ∃ m, analyzeTokenRisk env addr = Except.ok m ∧ m.liquidityScore = 0 ∧
        m.contractRiskScore = 0 ∧
        RiskFactor.errorAnalyzingOnChain ∈ m.riskFactors) := by
  refine ⟨?_, ?_, ?_, ?_⟩
  · intro h
    unfold analyzeTokenRisk
    rw [h]
    rfl
  · intro h1 h2
    unfold analyzeTokenRisk
    rw [h1, h2]
    rfl
  · intro h
    unfold analyzeTokenRisk
    rw [h]
    exact ⟨_, rfl⟩
  · intro hv herr
    have hoc : getOnChainTokenData env addr = Except.error () := by
      unfold getOnChainTokenData
      rw [hv]
      rcases herr with h | h
      · rw [h]
        rfl
      · rw [h]
        rfl
    have hlc : analyzeLiquidityAndContract env addr =
        ⟨0, 0, [RiskFactor.errorAnalyzingOnChain]⟩ := by
      unfold analyzeLiquidityAndContract
      rw [hoc]
    unfold analyzeTokenRisk
    rw [hv]
    refine ⟨_, rfl, ?_, ?_, ?_⟩
    · simp [mkRiskMetrics, hlc]
    · simp [mkRiskMetrics, hlc]
    · simp [mkRiskMetrics, hlc, riskFactorsOf]

/-- Claim C8 witness: the invalid-address rejection on a concrete invalid
    environment, and the degraded composite on a concrete environment whose
    mint lookup throws. -/
theorem c8_composite_witness :
    analyzeTokenRisk envInvalid ("BAD") = Except.error RiskError.invalidAddress ∧
    (∃ m, analyzeTokenRisk envErr ("TOKEN") = Except.ok m ∧ m.liquidityScore = 0 ∧
      m.contractRiskScore = 0 ∧ RiskFactor.errorAnalyzingOnChain ∈ m.riskFactors) :=
  ⟨(c8_composite envInvalid envInvalid ("BAD")).1 rfl,
   (c8_composite envErr envErr ("TOKEN")).2.2.2 rfl (Or.inl rfl)⟩

/-- Claim C9 (spec-modelled mapping): the risk level derived from the
    overall score of an analyzeTokenRisk result follows the uniform mapping,
    below 40 EXTREMELY HIGH, 40 to 59 HIGH, 60 to 79 MEDIUM, 80 and above
    LOW. -/
theorem c9_riskLevel (env : RpcEnv) (addr : String) (m : TokenRiskMetrics)
    (_h : analyzeTokenRisk env addr = Except.ok m) :
    (m.overallRiskScore < 40 → riskLevelOf m.overallRiskScore = "EXTREMELY HIGH") ∧
    (40 ≤ m.overallRiskScore → m.overallRiskScore < 60 →
      riskLevelOf m.overallRiskScore = "HIGH") ∧
    (60 ≤ m.overallRiskScore → m.overallRiskScore < 80 →
      riskLevelOf m.overallRiskScore = "MEDIUM") ∧
    (80 ≤ m.overallRiskScore → riskLevelOf m.overallRiskScore = "LOW") := by
  refine ⟨?_, ?_, ?_, ?_⟩
  · intro h1
    unfold riskLevelOf
    rw [if_pos h1]
  · intro h1 h2
    unfold riskLevelOf
    rw [if_neg (not_lt.mpr h1), if_pos h2]
  · intro h1 h2
    unfold riskLevelOf
    rw [if_neg (not_lt.mpr (by linarith)), if_neg (not_lt.mpr h1), if_pos h2]
  · intro h1
    unfold riskLevelOf
    rw [if_neg (not_lt.mpr (by linarith)), if_neg (not_lt.mpr (by linarith)),
      if_neg (not_lt.mpr (by linarith))]

/-- Claim C9 witness: the mapping evaluated on the overall score 20 produced
    by analyzeTokenRisk on a concrete all-failing environment. -/
theorem c9_riskLevel_witness :
    riskLevelOf c9M.overallRiskScore = "EXTREMELY HIGH" :=
  (c9_riskLevel envErr ("TOKEN") c9M (by with_unfolding_all decide)).1
    (by with_unfolding_all decide)

end SolanaAssistant
